import Mathlib

/-!
Shallow embedding of `scripts/agent-bot.py` from the-reef-public.

The script is a polling client for a web game.  Its two components are:

* `act` (lines 14-27): an HTTP POST helper with a bounded retry loop.  We
  model the network as an oracle `env : Nat -> Outcome` giving, for each
  attempt index, either a decoded JSON response or a raised exception.
  `act` returns the final response together with the list of sleep
  durations it performed (one per failed attempt).

* `run` (lines 29-104): an infinite loop.  One iteration of the loop body,
  after the initial `look` response `s` has been received, is modelled by
  the pure function `cycle s r w`, where `r` models the draw of
  `random.random()` and `w` the draw of `random.randint(10, 20)`.  Its
  result records, in order, the game actions POSTed after the `look` and
  the sleep durations performed at the level of `run`.

JSON numbers are modelled by `Int`, the float literal `0.4` by the rational
`4/10`, and possibly-absent JSON fields by `Option` with the defaults the
source applies at each read site (`.get(key, default)`).
-/

namespace AgentBot

/-- Python string containment `pat in s`, specialised to character lists:
`isPrefixL pat l` decides whether `pat` is an initial segment of `l`. -/
def isPrefixL : List Char → List Char → Bool
  | [], _ => true
  | _ :: _, [] => false
  | a :: pat, b :: l => a == b && isPrefixL pat l

/-- Python string containment `pat in s` on character lists: `pat` occurs
as a contiguous segment of the list. -/
def containsL (pat : List Char) : List Char → Bool
  | [] => isPrefixL pat []
  | c :: l => isPrefixL pat (c :: l) || containsL pat l

/-- Python's `pat in s` on strings. -/
def strContains (s pat : String) : Bool :=
  containsL pat.toList s.toList

/-- The `agent` object of a response, with every field optional as in JSON;
the source reads each field with `.get` and a default. -/
structure Agent where
  hp : Option Int
  maxHp : Option Int
  energy : Option Int
  maxEnergy : Option Int
  location : Option String
  isAlive : Option Bool

/-- One entry of the `inventory` array.  `resource` is read with `item["resource"]`
(no default) by the source, `quantity` with `.get("quantity", 0)`. -/
structure InvItem where
  resource : String
  quantity : Option Int

/-- A decoded JSON response of the `/action` endpoint, holding exactly the
fields the source reads: `success`, `error`, `retryAfterSec`, `narrative`,
`agent`, `inventory`.  `success` is the Python truthiness of
`d.get("success")` (absent or null collapse to `false`). -/
structure Response where
  success : Bool
  error : Option String
  retryAfterSec : Option Int
  narrative : Option String
  agent : Option Agent
  inventory : Option (List InvItem)

/-- The agent object with no fields, default of `s.get("agent", {})`. -/
def emptyAgent : Agent := ⟨none, none, none, none, none, none⟩

/-- Line 40: `a = s.get("agent", {})`. -/
def agentOf (s : Response) : Agent := s.agent.getD emptyAgent

/-- Line 41: `hp = a.get("hp", 0)`. -/
def hpOf (s : Response) : Int := (agentOf s).hp.getD 0

/-- Line 41: `mhp = a.get("maxHp", 100)`. -/
def maxHpOf (s : Response) : Int := (agentOf s).maxHp.getD 100

/-- Line 42: `en = a.get("energy", 0)`. -/
def energyOf (s : Response) : Int := (agentOf s).energy.getD 0

/-- Line 43: `zone = a.get("location", "shallows")`. -/
def zoneOf (s : Response) : String := (agentOf s).location.getD ("shallows")

/-- Line 44: `inv = s.get("inventory", [])`. -/
def invOf (s : Response) : List InvItem := s.inventory.getD []

/-- Line 45: `inv_count = sum(i.get("quantity", 0) for i in inv)`. -/
def invCount (s : Response) : Int :=
  ((invOf s).map (fun i => i.quantity.getD 0)).sum

/-- Line 50: `a.get("isAlive", True)`. -/
def isAliveOf (s : Response) : Bool := (agentOf s).isAlive.getD true

/-- `s.get("narrative", "")`, as read at lines 55 and 79. -/
def narrativeOf (s : Response) : String := s.narrative.getD ""

/-- Line 50 guard: `not a.get("isAlive", True) or hp == 0`. -/
def deadGuard (s : Response) : Bool :=
  !(isAliveOf s) || decide (hpOf s = 0)

/-- Line 55 guard: `"IN COMBAT" in s.get("narrative", "")`. -/
def combatGuard (s : Response) : Bool :=
  strContains (narrativeOf s) ("IN COMBAT")

/-- Line 60 guard: `hp < mhp * 0.4 or en < 15`. -/
def lowGuard (s : Response) : Bool :=
  decide ((hpOf s : ℚ) < (maxHpOf s : ℚ) * (4/10)) || decide (energyOf s < 15)

/-- Line 65 guard: `inv_count >= 8`. -/
def sellGuard (s : Response) : Bool :=
  decide (8 ≤ invCount s)

/-- The action field and target of one POST body issued by the loop
(the initial `look` of each cycle excluded). -/
inductive GameAction where
  | rest
  | flee
  | move (target : String)
  | sell (target : String)
  | gather (target : String)
  | quest (target : String)
  | status
  deriving DecidableEq

/-- Lines 80-82: the list `res` of gatherable resources found in the
narrative (`"Seaweed"` appends `"seaweed"`, `"Sand Dollars"` appends
`"sand_dollars"`). -/
def gatherTargets (narr : String) : List String :=
  (if strContains narr ("Seaweed") then ["seaweed"] else [])
    ++ (if strContains narr ("Sand Dollars") then ["sand_dollars"] else [])

/-- The observable effect of one iteration of the `run` loop body after the
`look` response arrived: the game actions POSTed, and the sleep durations
performed by `run` (the first sleep listed is always the unconditional
`time.sleep(6)` of line 37). -/
structure CycleOut where
  actions : List GameAction
  sleeps : List Nat
  deriving DecidableEq

/-- One iteration of the `run` loop body (lines 36-104), as a function of
the `look` response `s`, the `random.random()` draw `r`, and the
`random.randint(10, 20)` draw `w`.  Each branch transcribes the
corresponding source branch; `continue` ends the iteration. -/
def cycle (s : Response) (r : ℚ) (w : Nat) : CycleOut :=
  if !s.success then ⟨[], [6, 10]⟩
  else if deadGuard s then ⟨[GameAction.rest], [6, 65]⟩
  else if combatGuard s then ⟨[GameAction.flee], [6, 6]⟩
  else if lowGuard s then ⟨[GameAction.rest], [6, 65]⟩
  else if sellGuard s then
    ⟨(if zoneOf s != "trading_post" then [GameAction.move ("trading_post")] else [])
        ++ ((invOf s).take 3).map (fun i => GameAction.sell i.resource),
      6 :: (if zoneOf s != "trading_post" then [6] else [])
        ++ ((invOf s).take 3).map (fun _ => 6)⟩
  else if r < 4/10 then
    match gatherTargets (narrativeOf s) with
    | [] => ⟨[], [6, w]⟩
    | t :: _ => ⟨[GameAction.gather t], [6, 6, w]⟩
  else if r < 7/10 then
    ⟨[GameAction.move (if zoneOf s == "shallows" then "trading_post" else "shallows")],
      [6, 6, w]⟩
  else if r < 85/100 then ⟨[GameAction.quest ("list")], [6, 6, w]⟩
  else ⟨[GameAction.status], [6, 6, w]⟩

/-- The cycle reaches the random-action block (lines 76-104): the `look`
succeeded and no earlier branch `continue`d the loop. -/
def takesRandomPath (s : Response) : Bool :=
  s.success && !deadGuard s && !combatGuard s && !lowGuard s && !sellGuard s

/-- The cycle takes the sell branch (lines 64-73). -/
def takesSellPath (s : Response) : Bool :=
  s.success && !deadGuard s && !combatGuard s && !lowGuard s && sellGuard s

/-- What one attempt of `act` observes: either a decoded response, or an
exception raised by `requests.post` / `r.json()`. -/
inductive Outcome where
  | ok (d : Response)
  | exn

/-- The dictionary `{"success": False}` returned at line 27. -/
def failResponse : Response := ⟨false, none, none, none, none, none⟩

/-- Line 19: `"Rate limit" in d.get("error", "")`. -/
def rateLimited (d : Response) : Bool :=
  strContains (d.error.getD "") ("Rate limit")

/-- The retry loop of `act` (lines 15-27), returning the response it would
return together with the list of sleep durations it performs, one per
consumed attempt: `d.get("retryAfterSec", 3) + 1` for a rate-limited
response (line 20), `5` for an exception (line 26). -/
def actFrom (env : Nat → Outcome) : Nat → Nat → Response × List Int
  | _, 0 => (failResponse, [])
  | i, n + 1 =>
    match env i with
    | Outcome.exn =>
      let rec1 := actFrom env (i + 1) n
      (rec1.1, 5 :: rec1.2)
    | Outcome.ok d =>
      if rateLimited d then
        let rec1 := actFrom env (i + 1) n
        (rec1.1, (d.retryAfterSec.getD 3 + 1) :: rec1.2)
      else (d, [])

/-- `act(body)` with the default `retries=3` (line 14): result and sleeps. -/
def act (env : Nat → Outcome) : Response × List Int :=
  actFrom env 0 3

/-- The attempt neither returned a normal response: it raised, or its
response was rate-limited and the loop `continue`d. -/
def failedAttempt : Outcome → Bool
  | Outcome.exn => true
  | Outcome.ok d => rateLimited d

/-- A healthy agent in the shallows: 50/100 hp, 30/50 energy, alive. -/
def healthyAgent : Agent :=
  ⟨some 50, some 100, some 30, some 50, some ("shallows"), some true⟩

/-- A successful look response for a healthy agent with an empty inventory
and an empty narrative: every priority guard is off. -/
def idleSnap : Response :=
  ⟨true, none, none, some (""), some healthyAgent, some []⟩

/-- A successful look response for a healthy agent in the shallows holding
8 shells: the sell branch triggers away from the trading post. -/
def fullInvSnap : Response :=
  ⟨true, none, none, some (""), some healthyAgent,
    some [⟨("shell"), some 8⟩]⟩

/-- A look response of a living agent whose narrative signals combat. -/
def combatSnap : Response :=
  ⟨true, none, none, some ("You are IN COMBAT with a crab"), some healthyAgent, some []⟩

/-- A look response of a living agent at 10/100 hp: the rest branch fires. -/
def woundedSnap : Response :=
  ⟨true, none, none, some (""),
    some ⟨some 10, some 100, some 30, some 50, some ("shallows"), some true⟩, some []⟩

/-- A look response whose narrative offers seaweed to gather. -/
def seaweedSnap : Response :=
  ⟨true, none, none, some ("Seaweed sways around you"), some healthyAgent, some []⟩

/-- A rate-limited response carrying `retryAfterSec = 5`. -/
def rateLimitedResp : Response :=
  ⟨false, some ("Rate limit exceeded"), some 5, none, none, none⟩

/-- A plain successful response. -/
def okResp : Response :=
  ⟨true, none, none, none, none, none⟩

/-- A network oracle whose first attempt is rate limited and whose later
attempts succeed. -/
def rlEnv : Nat → Outcome :=
  fun i => if i = 0 then Outcome.ok rateLimitedResp else Outcome.ok okResp

/-- A network oracle on which every attempt raises. -/
def allExn : Nat → Outcome := fun _ => Outcome.exn

/-- The rational comparison of line 60 in integer form: multiplying
`hp < mhp * (4/10)` through by `10/2` gives `5 * hp < 2 * mhp`. -/
theorem lowGuard_eq (s : Response) :
    lowGuard s = (decide (5 * hpOf s < 2 * maxHpOf s) || decide (energyOf s < 15)) := by
  unfold lowGuard
  have h : ((hpOf s : ℚ) < (maxHpOf s : ℚ) * (4/10)) ↔ (5 * hpOf s < 2 * maxHpOf s) := by
    constructor
    · intro hh
      have h2 : (5 : ℚ) * (hpOf s : ℚ) < 2 * (maxHpOf s : ℚ) := by linarith
      exact_mod_cast h2
    · intro hh
      have h2 : (5 : ℚ) * (hpOf s : ℚ) < 2 * (maxHpOf s : ℚ) := by exact_mod_cast hh
      linarith
  rw [decide_eq_decide.mpr h]

example : takesRandomPath idleSnap = true := by
  simp only [takesRandomPath, lowGuard_eq]; decide
example : takesSellPath fullInvSnap = true := by
  simp only [takesSellPath, lowGuard_eq]; decide
example : strContains ("You are IN COMBAT with a crab") ("IN COMBAT") = true := by decide
example : strContains ("") ("IN COMBAT") = false := by decide

/-- Line 38: a failed look sleeps 10 seconds and restarts the loop. -/
theorem cycle_fail (s : Response) (r : ℚ) (w : Nat) (h : s.success = false) :
    cycle s r w = ⟨[], [6, 10]⟩ := by
  simp [cycle, h]

/-- Lines 50-52: the dead branch. -/
theorem cycle_dead (s : Response) (r : ℚ) (w : Nat) (h0 : s.success = true)
    (h1 : deadGuard s = true) :
    cycle s r w = ⟨[GameAction.rest], [6, 65]⟩ := by
  simp [cycle, h0, h1]

/-- Lines 54-57: the combat branch. -/
theorem cycle_combat (s : Response) (r : ℚ) (w : Nat) (h0 : s.success = true)
    (h1 : deadGuard s = false) (h2 : combatGuard s = true) :
    cycle s r w = ⟨[GameAction.flee], [6, 6]⟩ := by
  simp [cycle, h0, h1, h2]

/-- Lines 59-62: the low hp/energy branch. -/
theorem cycle_low (s : Response) (r : ℚ) (w : Nat) (h0 : s.success = true)
    (h1 : deadGuard s = false) (h2 : combatGuard s = false) (h3 : lowGuard s = true) :
    cycle s r w = ⟨[GameAction.rest], [6, 65]⟩ := by
  simp [cycle, h0, h1, h2, h3]

/-- Lines 64-73: the sell branch. -/
theorem cycle_sellB (s : Response) (r : ℚ) (w : Nat) (h0 : s.success = true)
    (h1 : deadGuard s = false) (h2 : combatGuard s = false) (h3 : lowGuard s = false)
    (h4 : sellGuard s = true) :
    cycle s r w =
      ⟨(if zoneOf s != "trading_post" then [GameAction.move ("trading_post")] else [])
          ++ ((invOf s).take 3).map (fun i => GameAction.sell i.resource),
        6 :: (if zoneOf s != "trading_post" then [6] else [])
          ++ ((invOf s).take 3).map (fun _ => 6)⟩ := by
  simp [cycle, h0, h1, h2, h3, h4]

/-- Lines 77-86: the gather branch of the random block. -/
theorem cycle_gatherB (s : Response) (r : ℚ) (w : Nat) (h0 : s.success = true)
    (h1 : deadGuard s = false) (h2 : combatGuard s = false) (h3 : lowGuard s = false)
    (h4 : sellGuard s = false) (hr : r < 4/10) :
    cycle s r w =
      match gatherTargets (narrativeOf s) with
      | [] => ⟨[], [6, w]⟩
      | t :: _ => ⟨[GameAction.gather t], [6, 6, w]⟩ := by
  simp [cycle, h0, h1, h2, h3, h4, hr]

/-- Lines 87-92: the move branch of the random block. -/
theorem cycle_moveB (s : Response) (r : ℚ) (w : Nat) (h0 : s.success = true)
    (h1 : deadGuard s = false) (h2 : combatGuard s = false) (h3 : lowGuard s = false)
    (h4 : sellGuard s = false) (hr1 : ¬ r < 4/10) (hr2 : r < 7/10) :
    cycle s r w =
      ⟨[GameAction.move (if zoneOf s == "shallows" then "trading_post" else "shallows")],
        [6, 6, w]⟩ := by
  simp [cycle, h0, h1, h2, h3, h4, hr1, hr2]

/-- Lines 93-96: the quest branch of the random block. -/
theorem cycle_questB (s : Response) (r : ℚ) (w : Nat) (h0 : s.success = true)
    (h1 : deadGuard s = false) (h2 : combatGuard s = false) (h3 : lowGuard s = false)
    (h4 : sellGuard s = false) (hr1 : ¬ r < 4/10) (hr2 : ¬ r < 7/10) (hr3 : r < 85/100) :
    cycle s r w = ⟨[GameAction.quest ("list")], [6, 6, w]⟩ := by
  simp [cycle, h0, h1, h2, h3, h4, hr1, hr2, hr3]

/-- Lines 97-100: the status branch of the random block. -/
theorem cycle_statusB (s : Response) (r : ℚ) (w : Nat) (h0 : s.success = true)
    (h1 : deadGuard s = false) (h2 : combatGuard s = false) (h3 : lowGuard s = false)
    (h4 : sellGuard s = false) (hr1 : ¬ r < 4/10) (hr2 : ¬ r < 7/10) (hr3 : ¬ r < 85/100) :
    cycle s r w = ⟨[GameAction.status], [6, 6, w]⟩ := by
  simp [cycle, h0, h1, h2, h3, h4, hr1, hr2, hr3]

/-- One-step unfolding of the retry loop. -/
theorem actFrom_succ (env : Nat → Outcome) (i n : Nat) :
    actFrom env i (n + 1) =
      match env i with
      | Outcome.exn => ((actFrom env (i + 1) n).1, 5 :: (actFrom env (i + 1) n).2)
      | Outcome.ok d =>
        if rateLimited d then
          ((actFrom env (i + 1) n).1, (d.retryAfterSec.getD 3 + 1) :: (actFrom env (i + 1) n).2)
        else (d, []) := rfl

/-- A failed attempt (exception or rate limit) passes control to the next
attempt without changing the eventual return value. -/
theorem actFrom_failed_step (env : Nat → Outcome) (i n : Nat)
    (h : failedAttempt (env i) = true) :
    (actFrom env i (n + 1)).1 = (actFrom env (i + 1) n).1 := by
  rw [actFrom_succ]
  cases he : env i with
  | exn => rfl
  | ok d =>
    have hd : rateLimited d = true := by simpa [failedAttempt, he] using h
    simp [hd]

/-- `act` performs at most one sleep per attempt, so at most `n` sleeps in
`n` attempts. -/
theorem actFrom_sleeps_length (env : Nat → Outcome) :
    ∀ n i, ((actFrom env i n).2).length ≤ n := by
  intro n
  induction n with
  | zero => intro i; simp [actFrom]
  | succ n ih =>
    intro i
    rw [actFrom_succ]
    cases he : env i with
    | exn => simpa using ih (i + 1)
    | ok d =>
      by_cases hd : rateLimited d = true
      · simpa [hd] using ih (i + 1)
      · simp [hd]

/-- C7: for every network oracle on which the first three attempts all fail
(by exception or by a rate-limited response), `act` propagates nothing and
returns the dictionary with `success = False` (line 27). -/
theorem act_exhausted_returns_failure (env : Nat → Outcome)
    (h : ∀ i, i < 3 → failedAttempt (env i) = true) :
    (act env).1 = failResponse :=
  calc (act env).1
      = (actFrom env 1 2).1 := actFrom_failed_step env 0 2 (h 0 (by norm_num))
    _ = (actFrom env 2 1).1 := actFrom_failed_step env 1 1 (h 1 (by norm_num))
    _ = (actFrom env 3 0).1 := actFrom_failed_step env 2 0 (h 2 (by norm_num))
    _ = failResponse := rfl

/-- C7 witness: on an oracle that always raises, `act` returns the failure
dictionary. -/
theorem act_exhausted_returns_failure_witness : (act allExn).1 = failResponse :=
  act_exhausted_returns_failure allExn (fun _ _ => rfl)

/-- C2 counterexample: on an oracle whose first response is rate limited
with `retryAfterSec = 5`, the single retry sleep performed by `act` is 6
seconds, not the server-supplied 5: line 20 sleeps
`d.get("retryAfterSec", 3) + 1`. -/
theorem act_sleep_counterexample :
    rateLimitedResp.retryAfterSec = some 5 ∧
      (act rlEnv).2 = [6] ∧ (act rlEnv).2 ≠ [5] := by
  refine ⟨rfl, by decide, by decide⟩

/-- C2 amended: when the first attempt yields a rate-limited response `d`,
`act` sleeps `d.retryAfterSec + 1` seconds (default `3 + 1` when the field
is absent) before retrying, and performs at most 3 attempts (hence at most
3 retry sleeps). -/
theorem act_rate_limit_sleep (env : Nat → Outcome) (d : Response)
    (h : env 0 = Outcome.ok d) (hd : rateLimited d = true) :
    (act env).2.head? = some (d.retryAfterSec.getD 3 + 1) ∧
      (act env).2.length ≤ 3 := by
  constructor
  · show (actFrom env 0 3).2.head? = _
    unfold actFrom
    simp [h, hd]
  · exact actFrom_sleeps_length env 3 0

/-- C2 witness: on the concrete rate-limited oracle, the first sleep is
`5 + 1` seconds and at most three sleeps happen. -/
theorem act_rate_limit_sleep_witness :
    (act rlEnv).2.head? = some (rateLimitedResp.retryAfterSec.getD 3 + 1) ∧
      (act rlEnv).2.length ≤ 3 :=
  act_rate_limit_sleep rlEnv rateLimitedResp rfl (by decide)

/-- Once the dead, combat and low-resource branches have all been skipped,
no rest action is issued in the remainder of the cycle. -/
theorem rest_not_mem_past_low (s : Response) (r : ℚ) (w : Nat) (h0 : s.success = true)
    (h1 : deadGuard s = false) (h2 : combatGuard s = false) (h3 : lowGuard s = false) :
    GameAction.rest ∉ (cycle s r w).actions := by
  by_cases h4 : sellGuard s = true
  · rw [cycle_sellB s r w h0 h1 h2 h3 h4]
    simp only [CycleOut.mk.injEq, List.mem_append, List.mem_map]
    rintro (hm | ⟨i, _, hi⟩)
    · revert hm; split <;> simp
    · exact GameAction.noConfusion hi
  · have h4' : sellGuard s = false := by simpa using h4
    by_cases hr : r < 4/10
    · rw [cycle_gatherB s r w h0 h1 h2 h3 h4' hr]
      cases gatherTargets (narrativeOf s) <;> simp
    · by_cases hr2 : r < 7/10
      · rw [cycle_moveB s r w h0 h1 h2 h3 h4' hr hr2]; simp
      · by_cases hr3 : r < 85/100
        · rw [cycle_questB s r w h0 h1 h2 h3 h4' hr hr2 hr3]; simp
        · rw [cycle_statusB s r w h0 h1 h2 h3 h4' hr hr2 hr3]; simp

/-- C5: for a living agent not in combat, after a successful look the cycle
issues a rest action exactly when `hp < mhp * 0.4 or en < 15` (line 60). -/
theorem rest_iff_low_resources (s : Response) (r : ℚ) (w : Nat) (h0 : s.success = true)
    (h1 : deadGuard s = false) (h2 : combatGuard s = false) :
    (GameAction.rest ∈ (cycle s r w).actions ↔
      ((hpOf s : ℚ) < (maxHpOf s : ℚ) * (4/10) ∨ energyOf s < 15)) := by
  by_cases h3 : lowGuard s = true
  · rw [cycle_low s r w h0 h1 h2 h3]
    have hprop : (hpOf s : ℚ) < (maxHpOf s : ℚ) * (4/10) ∨ energyOf s < 15 := by
      simpa [lowGuard, Bool.or_eq_true, decide_eq_true_eq] using h3
    simpa using hprop
  · have h3' : lowGuard s = false := by simpa using h3
    have hnot : ¬ ((hpOf s : ℚ) < (maxHpOf s : ℚ) * (4/10) ∨ energyOf s < 15) := by
      simpa [lowGuard, Bool.or_eq_true, decide_eq_true_eq] using h3'
    exact iff_of_false (rest_not_mem_past_low s r w h0 h1 h2 h3') hnot

/-- C5 witness: at 10/100 hp the wounded snapshot rests, and the low-resource
condition indeed holds there. -/
theorem rest_iff_low_resources_witness :
    GameAction.rest ∈ (cycle woundedSnap 0 12).actions ↔
      ((hpOf woundedSnap : ℚ) < (maxHpOf woundedSnap : ℚ) * (4/10) ∨
        energyOf woundedSnap < 15) :=
  rest_iff_low_resources woundedSnap 0 12 (by decide) (by decide) (by decide)

/-- C6: a living agent whose narrative contains "IN COMBAT" issues exactly
the flee action that cycle, whatever the hp/energy/inventory state and the
random draws are (lines 54-57 precede all later branches). -/
theorem combat_flees (s : Response) (r : ℚ) (w : Nat) (h0 : s.success = true)
    (h1 : deadGuard s = false)
    (h2 : strContains (narrativeOf s) ("IN COMBAT") = true) :
    (cycle s r w).actions = [GameAction.flee] := by
  rw [cycle_combat s r w h0 h1 h2]

/-- C6 witness: the concrete combat snapshot flees. -/
theorem combat_flees_witness :
    (cycle combatSnap (1/2) 15).actions = [GameAction.flee] :=
  combat_flees combatSnap (1/2) 15 (by decide) (by decide) (by decide)

/-- C8: when the look fails, the cycle issues no game action at all, sleeps
10 seconds (after the unconditional 6-second sleep of line 37) and restarts
the loop (line 38). -/
theorem failed_look_no_action (s : Response) (r : ℚ) (w : Nat)
    (h : s.success = false) :
    (cycle s r w).actions = [] ∧ (cycle s r w).sleeps = [6, 10] := by
  rw [cycle_fail s r w h]
  exact ⟨rfl, rfl⟩

/-- C8 witness: the failure dictionary returned by an exhausted `act` leads
to an action-free cycle. -/
theorem failed_look_no_action_witness :
    (cycle failResponse 0 10).actions = [] ∧ (cycle failResponse 0 10).sleeps = [6, 10] :=
  failed_look_no_action failResponse 0 10 rfl

/-- C9: when the sell branch triggers (inventory count at least 8), the
cycle issues a move to the trading post exactly when the location differs
from it, followed by one sell per entry of `inv[:3]` — at most 3 sells. -/
theorem sell_branch_actions (s : Response) (r : ℚ) (w : Nat) (h0 : s.success = true)
    (h1 : deadGuard s = false) (h2 : combatGuard s = false) (h3 : lowGuard s = false)
    (h4 : 8 ≤ invCount s) :
    (cycle s r w).actions =
        (if zoneOf s != "trading_post" then [GameAction.move ("trading_post")] else [])
          ++ ((invOf s).take 3).map (fun i => GameAction.sell i.resource) ∧
      (((invOf s).take 3).map (fun i => GameAction.sell i.resource)).length ≤ 3 := by
  have h4' : sellGuard s = true := by simp [sellGuard, h4]
  rw [cycle_sellB s r w h0 h1 h2 h3 h4']
  refine ⟨rfl, ?_⟩
  rw [List.length_map, List.length_take]
  exact Nat.min_le_left 3 _

/-- C9 witness: with 8 shells in the shallows, the cycle moves to the
trading post and sells the single inventory entry. -/
theorem sell_branch_actions_witness :
    (cycle fullInvSnap 0 10).actions =
        (if zoneOf fullInvSnap != "trading_post" then [GameAction.move ("trading_post")]
          else [])
          ++ ((invOf fullInvSnap).take 3).map (fun i => GameAction.sell i.resource) ∧
      (((invOf fullInvSnap).take 3).map (fun i => GameAction.sell i.resource)).length ≤ 3 :=
  sell_branch_actions fullInvSnap 0 10 (by decide) (by decide) (by decide)
    (by rw [lowGuard_eq]; decide) (by decide)

/-- C10: in the gather branch (`r < 0.4`), a gather targets seaweed whenever
"Seaweed" occurs in the narrative, sand dollars when only "Sand Dollars"
occurs, and nothing is issued when neither occurs (lines 77-86). -/
theorem gather_branch_targets (s : Response) (r : ℚ) (w : Nat) (h0 : s.success = true)
    (h1 : deadGuard s = false) (h2 : combatGuard s = false) (h3 : lowGuard s = false)
    (h4 : sellGuard s = false) (hr : r < 4/10) :
    ((strContains (narrativeOf s) ("Seaweed") = true →
        (cycle s r w).actions = [GameAction.gather ("seaweed")]) ∧
      (strContains (narrativeOf s) ("Seaweed") = false →
        strContains (narrativeOf s) ("Sand Dollars") = true →
        (cycle s r w).actions = [GameAction.gather ("sand_dollars")]) ∧
      (strContains (narrativeOf s) ("Seaweed") = false →
        strContains (narrativeOf s) ("Sand Dollars") = false →
        (cycle s r w).actions = [])) := by
  rw [cycle_gatherB s r w h0 h1 h2 h3 h4 hr]
  refine ⟨fun hsw => ?_, fun hsw hsd => ?_, fun hsw hsd => ?_⟩
  · cases hsd : strContains (narrativeOf s) ("Sand Dollars") <;>
      simp [gatherTargets, hsw, hsd]
  · simp [gatherTargets, hsw, hsd]
  · simp [gatherTargets, hsw, hsd]

/-- C10 witness: a narrative mentioning only seaweed leads to gathering
seaweed. -/
theorem gather_branch_targets_witness :
    ((strContains (narrativeOf seaweedSnap) ("Seaweed") = true →
        (cycle seaweedSnap 0 10).actions = [GameAction.gather ("seaweed")]) ∧
      (strContains (narrativeOf seaweedSnap) ("Seaweed") = false →
        strContains (narrativeOf seaweedSnap) ("Sand Dollars") = true →
        (cycle seaweedSnap 0 10).actions = [GameAction.gather ("sand_dollars")]) ∧
      (strContains (narrativeOf seaweedSnap) ("Seaweed") = false →
        strContains (narrativeOf seaweedSnap) ("Sand Dollars") = false →
        (cycle seaweedSnap 0 10).actions = [])) :=
  gather_branch_targets seaweedSnap 0 10 (by decide) (by decide) (by decide)
    (by rw [lowGuard_eq]; decide) (by decide) (by norm_num)

/-- C3: on the random path, the action category is picked from the single
draw `r` by the thresholds 0.4 / 0.7 / 0.85: gather below 0.4, move in
[0.4, 0.7), quest in [0.7, 0.85), status at or above 0.85. -/
theorem random_category (s : Response) (r : ℚ) (w : Nat)
    (hpath : takesRandomPath s = true) :
    ((r < 4/10 → ∀ a ∈ (cycle s r w).actions, ∃ t, a = GameAction.gather t) ∧
      (4/10 ≤ r → r < 7/10 → (cycle s r w).actions
        = [GameAction.move (if zoneOf s == "shallows" then "trading_post" else "shallows")]) ∧
      (7/10 ≤ r → r < 85/100 → (cycle s r w).actions = [GameAction.quest ("list")]) ∧
      (85/100 ≤ r → (cycle s r w).actions = [GameAction.status])) := by
  simp only [takesRandomPath, Bool.and_eq_true, Bool.not_eq_true'] at hpath
  obtain ⟨⟨⟨⟨h0, h1⟩, h2⟩, h3⟩, h4⟩ := hpath
  refine ⟨fun hr a ha => ?_, fun hr1 hr2 => ?_, fun hr1 hr2 => ?_, fun hr1 => ?_⟩
  · rw [cycle_gatherB s r w h0 h1 h2 h3 h4 hr] at ha
    rcases hgt : gatherTargets (narrativeOf s) with _ | ⟨t, l⟩
    · rw [hgt] at ha; simp at ha
    · rw [hgt] at ha; simp at ha; exact ⟨t, ha⟩
  · rw [cycle_moveB s r w h0 h1 h2 h3 h4 (not_lt.mpr hr1) hr2]
  · rw [cycle_questB s r w h0 h1 h2 h3 h4
      (not_lt.mpr (le_trans (by norm_num) hr1)) (not_lt.mpr hr1) hr2]
  · rw [cycle_statusB s r w h0 h1 h2 h3 h4
      (not_lt.mpr (le_trans (by norm_num) hr1))
      (not_lt.mpr (le_trans (by norm_num) hr1)) (not_lt.mpr hr1)]

/-- C3 witness: at `r = 1/2` on the idle snapshot, the category is move. -/
theorem random_category_witness :
    (((1/2 : ℚ) < 4/10 →
        ∀ a ∈ (cycle idleSnap (1/2) 15).actions, ∃ t, a = GameAction.gather t) ∧
      ((4/10 : ℚ) ≤ 1/2 → (1/2 : ℚ) < 7/10 → (cycle idleSnap (1/2) 15).actions
        = [GameAction.move
            (if zoneOf idleSnap == "shallows" then "trading_post" else "shallows")]) ∧
      ((7/10 : ℚ) ≤ 1/2 → (1/2 : ℚ) < 85/100 →
        (cycle idleSnap (1/2) 15).actions = [GameAction.quest ("list")]) ∧
      ((85/100 : ℚ) ≤ 1/2 →
        (cycle idleSnap (1/2) 15).actions = [GameAction.status])) :=
  random_category idleSnap (1/2) 15 (by simp only [takesRandomPath, lowGuard_eq]; decide)

/-- Outside the sell path, at most one game action is issued per cycle. -/
theorem actions_short_of_not_sell (s : Response) (r : ℚ) (w : Nat)
    (hns : takesSellPath s = false) :
    (cycle s r w).actions.length ≤ 1 := by
  by_cases h0 : s.success = true
  · by_cases h1 : deadGuard s = true
    · rw [cycle_dead s r w h0 h1]; simp
    · have h1' : deadGuard s = false := by simpa using h1
      by_cases h2 : combatGuard s = true
      · rw [cycle_combat s r w h0 h1' h2]; simp
      · have h2' : combatGuard s = false := by simpa using h2
        by_cases h3 : lowGuard s = true
        · rw [cycle_low s r w h0 h1' h2' h3]; simp
        · have h3' : lowGuard s = false := by simpa using h3
          by_cases h4 : sellGuard s = true
          · exfalso
            simp [takesSellPath, h0, h1', h2', h3', h4] at hns
          · have h4' : sellGuard s = false := by simpa using h4
            by_cases hr : r < 4/10
            · rw [cycle_gatherB s r w h0 h1' h2' h3' h4' hr]
              cases gatherTargets (narrativeOf s) <;> simp
            · by_cases hr2 : r < 7/10
              · rw [cycle_moveB s r w h0 h1' h2' h3' h4' hr hr2]; simp
              · by_cases hr3 : r < 85/100
                · rw [cycle_questB s r w h0 h1' h2' h3' h4' hr hr2 hr3]; simp
                · rw [cycle_statusB s r w h0 h1' h2' h3' h4' hr hr2 hr3]; simp
  · have h0' : s.success = false := by simpa using h0
    rw [cycle_fail s r w h0']; simp

/-- C1 counterexample: on a sell-branch snapshot (8 shells held away from
the trading post) a single cycle POSTs two game actions — a move and a
sell — refuting "at most one game action per cycle". -/
theorem single_action_counterexample :
    (cycle fullInvSnap 0 10).actions
        = [GameAction.move ("trading_post"), GameAction.sell ("shell")] ∧
      1 < (cycle fullInvSnap 0 10).actions.length := by
  have h := cycle_sellB fullInvSnap 0 10 (by decide) (by decide) (by decide)
    (by rw [lowGuard_eq]; decide) (by decide)
  rw [h]
  exact ⟨by decide, by decide⟩

/-- C1 amended: each cycle issues at most four game actions after the look,
and at most one whenever the sell branch is not taken (the sell branch may
issue one move plus up to three sells). -/
theorem cycle_actions_bound (s : Response) (r : ℚ) (w : Nat) :
    (cycle s r w).actions.length ≤ 4 ∧
      (takesSellPath s = false → (cycle s r w).actions.length ≤ 1) := by
  constructor
  · by_cases hts : takesSellPath s = true
    · simp only [takesSellPath, Bool.and_eq_true, Bool.not_eq_true'] at hts
      obtain ⟨⟨⟨⟨h0, h1⟩, h2⟩, h3⟩, h4⟩ := hts
      rw [cycle_sellB s r w h0 h1 h2 h3 h4]
      split <;> simp [List.length_append, List.length_map]
    · have h := actions_short_of_not_sell s r w (by simpa using hts)
      omega
  · exact actions_short_of_not_sell s r w

/-- C1 witness for the amended bound, on the idle snapshot where the sell
path is not taken. -/
theorem cycle_actions_bound_witness :
    (cycle idleSnap (1/2) 15).actions.length ≤ 4 ∧
      (cycle idleSnap (1/2) 15).actions.length ≤ 1 :=
  ⟨(cycle_actions_bound idleSnap (1/2) 15).1,
    (cycle_actions_bound idleSnap (1/2) 15).2
      (by simp only [takesSellPath, lowGuard_eq]; decide)⟩

/-- C4: whenever a rest action is issued the cycle ends with the fixed
65-second sleep; on the random path the cycle ends with the drawn wait `w`
(an integer between 10 and 20) and every earlier sleep is the fixed 6;
off the random path every sleep is one of the fixed durations 6, 10, 65. -/
theorem sleep_policy (s : Response) (r : ℚ) (w : Nat) (hw1 : 10 ≤ w) (hw2 : w ≤ 20) :
    ((GameAction.rest ∈ (cycle s r w).actions → (cycle s r w).sleeps = [6, 65]) ∧
      (takesRandomPath s = true →
        (cycle s r w).sleeps.getLast? = some w ∧
          ∀ t ∈ (cycle s r w).sleeps.dropLast, t = 6) ∧
      (takesRandomPath s = false →
        ∀ t ∈ (cycle s r w).sleeps, t = 6 ∨ t = 10 ∨ t = 65)) := by
  by_cases h0 : s.success = true
  · by_cases h1 : deadGuard s = true
    · rw [cycle_dead s r w h0 h1]
      refine ⟨fun _ => rfl, fun hp => ?_, fun _ t ht => ?_⟩
      · simp [takesRandomPath, h1] at hp
      · simp at ht; tauto
    · have h1' : deadGuard s = false := by simpa using h1
      by_cases h2 : combatGuard s = true
      · rw [cycle_combat s r w h0 h1' h2]
        refine ⟨fun hm => ?_, fun hp => ?_, fun _ t ht => ?_⟩
        · simp at hm
        · simp [takesRandomPath, h2] at hp
        · simp at ht; tauto
      · have h2' : combatGuard s = false := by simpa using h2
        by_cases h3 : lowGuard s = true
        · rw [cycle_low s r w h0 h1' h2' h3]
          refine ⟨fun _ => rfl, fun hp => ?_, fun _ t ht => ?_⟩
          · simp [takesRandomPath, h3] at hp
          · simp at ht; tauto
        · have h3' : lowGuard s = false := by simpa using h3
          have hnr := rest_not_mem_past_low s r w h0 h1' h2' h3'
          by_cases h4 : sellGuard s = true
          · refine ⟨fun hm => absurd hm hnr, fun hp => ?_, fun _ t ht => ?_⟩
            · simp [takesRandomPath, h4] at hp
            · rw [cycle_sellB s r w h0 h1' h2' h3' h4] at ht
              left
              rcases List.mem_cons.mp ht with h | h
              · exact h
              · rcases List.mem_append.mp h with h | h
                · revert h; split <;> simp
                · rcases List.mem_map.mp h with ⟨x, _, hx⟩
                  exact hx.symm
          · have h4' : sellGuard s = false := by simpa using h4
            have hpath : takesRandomPath s = true := by
              simp [takesRandomPath, h0, h1', h2', h3', h4']
            have hleaf : (cycle s r w).sleeps = [6, w] ∨ (cycle s r w).sleeps = [6, 6, w] := by
              by_cases hr : r < 4/10
              · rw [cycle_gatherB s r w h0 h1' h2' h3' h4' hr]
                cases gatherTargets (narrativeOf s)
                · left; rfl
                · right; rfl
              · by_cases hr2 : r < 7/10
                · rw [cycle_moveB s r w h0 h1' h2' h3' h4' hr hr2]; right; rfl
                · by_cases hr3 : r < 85/100
                  · rw [cycle_questB s r w h0 h1' h2' h3' h4' hr hr2 hr3]; right; rfl
                  · rw [cycle_statusB s r w h0 h1' h2' h3' h4' hr hr2 hr3]; right; rfl
            refine ⟨fun hm => absurd hm hnr, fun _ => ?_, fun hp => ?_⟩
            · rcases hleaf with h | h <;> rw [h]
              · exact ⟨rfl, by intro t ht; simpa using ht⟩
              · refine ⟨rfl, ?_⟩
                intro t ht
                simp at ht
                tauto
            · rw [hpath] at hp
              exact absurd hp (by simp)
  · have h0' : s.success = false := by simpa using h0
    rw [cycle_fail s r w h0']
    refine ⟨fun hm => ?_, fun hp => ?_, fun _ t ht => ?_⟩
    · simp at hm
    · simp [takesRandomPath, h0'] at hp
    · simp at ht; tauto

/-- C4 witness: on the idle snapshot with `w = 15`, the random-path cycle
ends with the 15-second wait. -/
theorem sleep_policy_witness :
    (10 ≤ 15 ∧ (15 : Nat) ≤ 20) ∧
      ((GameAction.rest ∈ (cycle idleSnap (1/2) 15).actions →
          (cycle idleSnap (1/2) 15).sleeps = [6, 65]) ∧
        (takesRandomPath idleSnap = true →
          (cycle idleSnap (1/2) 15).sleeps.getLast? = some 15 ∧
            ∀ t ∈ (cycle idleSnap (1/2) 15).sleeps.dropLast, t = 6) ∧
        (takesRandomPath idleSnap = false →
          ∀ t ∈ (cycle idleSnap (1/2) 15).sleeps, t = 6 ∨ t = 10 ∨ t = 65)) :=
  ⟨⟨by decide, by decide⟩, sleep_policy idleSnap (1/2) 15 (by decide) (by decide)⟩

end AgentBot
